import Mathlib

/-!
Verification of the Smart Waste Management System backend core:
threshold evaluation (alertService.evaluateReading), alert lifecycle
(collection workflow, alert resolution), notification dispatch
(notificationService.sendNotification, notifyRelevantUsers) and the
ingestion coordinator (deviceController.receiveSensorData).

JavaScript numbers are modelled as rationals (`Rat`); nullable columns
and absent JSON fields as `Option`; JavaScript truthiness of a string
as inequality with the empty string; each fallible database operation
whose error the code inspects is modelled by an explicit outcome flag,
while operations whose result the code ignores are modelled as applied.
-/

namespace SmartWaste

/-- Alert severity tiers (`alerts.severity`). -/
inductive Severity where
  | low
  | medium
  | high
  | critical
  deriving DecidableEq, Repr

/-- Alert kinds (`alerts.alert_type`). -/
inductive AlertType where
  | fill_warning
  | fill_critical
  | gas_detected
  | maintenance_needed
  deriving DecidableEq, Repr

/-- User roles (`users.role`). -/
inductive Role where
  | admin
  | collector
  | operator
  deriving DecidableEq, Repr

/-- Notification channels (`notifications.channel`). -/
inductive Channel where
  | email
  | sms
  | push
  deriving DecidableEq, Repr

/-- Notification delivery states (`notifications.status`). -/
inductive NotifStatus where
  | pending
  | sent
  | failed
  deriving DecidableEq, Repr

/-- JavaScript truthiness of an optional string value:
`null`/`undefined` and the empty string are falsy. -/
def optStrTruthy : Option String → Bool
  | none => false
  | some s => !(s == "")

/-- The `x || null` normalisation the controllers apply to optional
string fields: falsy values are stored as `null`. -/
def strOrNull (x : Option String) : Option String :=
  if optStrTruthy x then x else none

/-- The `x || null` normalisation applied to optional numeric fields:
the falsy number `0` is stored as `null`. -/
def numOrNull (x : Option Rat) : Option Rat :=
  match x with
  | none => none
  | some v => if v = 0 then none else some v

/-- Fill-level thresholds (`THRESHOLDS.fill` in alertService). -/
structure FillThresholds where
  warning : Rat
  critical : Rat
  flash : Rat
  deriving DecidableEq, Repr

/-- Two-tier thresholds (`THRESHOLDS.gas` / `.temperature` / `.battery`). -/
structure TwoTier where
  warning : Rat
  critical : Rat
  deriving DecidableEq, Repr

/-- The configurable threshold table of the alert service. -/
structure Thresholds where
  fill : FillThresholds
  gas : TwoTier
  temperature : TwoTier
  battery : TwoTier
  deriving DecidableEq, Repr

/-- The default `THRESHOLDS` constant of alertService. -/
def THRESHOLDS : Thresholds :=
  { fill := { warning := 50, critical := 80, flash := 95 }
    gas := { warning := 200, critical := 500 }
    temperature := { warning := 45, critical := 60 }
    battery := { warning := 20, critical := 10 } }

/-- A row of `sensor_readings` as consumed by `evaluateReading`. -/
structure Reading where
  bin_id : String
  fill_level : Rat
  waste_type : Option String
  weight : Option Rat
  gas_level : Option Rat
  temperature : Option Rat
  moisture : Option Rat
  battery_level : Option Rat
  deriving DecidableEq, Repr

/-- A candidate alert object as produced by `buildAlert`, ready for
insertion into `alerts`. -/
structure AlertCandidate where
  bin_id : String
  alert_type : AlertType
  severity : Severity
  message : String
  resolved : Bool
  deriving DecidableEq, Repr

/-- Model of `buildAlert(reading, alertType, severity, message)`. -/
def buildAlert (r : Reading) (t : AlertType) (s : Severity) (m : String) : AlertCandidate :=
  { bin_id := r.bin_id, alert_type := t, severity := s, message := m, resolved := false }

/-- Message for the flash fill alert. -/
def fillFlashMsg (v : Rat) : String :=
  ("Bin is " ++ toString v) ++ "% full - FLASH ALERT! Immediate collection required."

/-- Message for the high fill alert. -/
def fillHighMsg (v : Rat) : String :=
  ("Bin is " ++ toString v) ++ "% full - approaching capacity."

/-- Message for the medium fill alert. -/
def fillWarnMsg (v : Rat) : String :=
  ("Bin is " ++ toString v) ++ "% full - schedule collection soon."

/-- Message for the critical gas alert. -/
def gasCritMsg (v : Rat) : String :=
  ("Dangerous gas level detected: " ++ toString v) ++ " ppm."

/-- Message for the high gas alert. -/
def gasWarnMsg (v : Rat) : String :=
  ("Elevated gas level detected: " ++ toString v) ++ " ppm."

/-- Message for the critical temperature alert. -/
def tempCritMsg (v : Rat) : String :=
  ("Extreme temperature detected: " ++ toString v) ++ " C."

/-- Message for the high temperature alert. -/
def tempWarnMsg (v : Rat) : String :=
  ("High temperature detected: " ++ toString v) ++ " C."

/-- Message for the critical battery alert. -/
def battCritMsg (v : Rat) : String :=
  ("Battery critically low: " ++ toString v) ++ "%."

/-- Message for the medium battery alert. -/
def battWarnMsg (v : Rat) : String :=
  ("Battery low: " ++ toString v) ++ "%."

/-- The fill-level branch of `evaluateReading`: flash at `fill.flash`,
high at `fill.critical`, medium at `fill.warning`, else nothing. -/
def fillCandidates (t : Thresholds) (r : Reading) : List AlertCandidate :=
  if r.fill_level ≥ t.fill.flash then
    [buildAlert r AlertType.fill_critical Severity.critical (fillFlashMsg r.fill_level)]
  else if r.fill_level ≥ t.fill.critical then
    [buildAlert r AlertType.fill_critical Severity.high (fillHighMsg r.fill_level)]
  else if r.fill_level ≥ t.fill.warning then
    [buildAlert r AlertType.fill_warning Severity.medium (fillWarnMsg r.fill_level)]
  else []

/-- The gas branch of `evaluateReading`: skipped when `gas_level` is
null, critical at `gas.critical`, high at `gas.warning`. -/
def gasCandidates (t : Thresholds) (r : Reading) : List AlertCandidate :=
  match r.gas_level with
  | none => []
  | some g =>
    if g ≥ t.gas.critical then
      [buildAlert r AlertType.gas_detected Severity.critical (gasCritMsg g)]
    else if g ≥ t.gas.warning then
      [buildAlert r AlertType.gas_detected Severity.high (gasWarnMsg g)]
    else []

/-- The temperature branch of `evaluateReading`. -/
def tempCandidates (t : Thresholds) (r : Reading) : List AlertCandidate :=
  match r.temperature with
  | none => []
  | some v =>
    if v ≥ t.temperature.critical then
      [buildAlert r AlertType.maintenance_needed Severity.critical (tempCritMsg v)]
    else if v ≥ t.temperature.warning then
      [buildAlert r AlertType.maintenance_needed Severity.high (tempWarnMsg v)]
    else []

/-- The battery branch of `evaluateReading`: skipped when
`battery_level` is null, critical at or below `battery.critical`,
medium at or below `battery.warning`. -/
def battCandidates (t : Thresholds) (r : Reading) : List AlertCandidate :=
  match r.battery_level with
  | none => []
  | some b =>
    if b ≤ t.battery.critical then
      [buildAlert r AlertType.maintenance_needed Severity.critical (battCritMsg b)]
    else if b ≤ t.battery.warning then
      [buildAlert r AlertType.maintenance_needed Severity.medium (battWarnMsg b)]
    else []

/-- The pure candidate computation of `evaluateReading`: the `alerts`
array in source order fill, gas, temperature, battery. -/
def candidates (t : Thresholds) (r : Reading) : List AlertCandidate :=
  fillCandidates t r ++ gasCandidates t r ++ tempCandidates t r ++ battCandidates t r

/-- Model of `evaluateReading` including its persistence step: when candidates
exist they are inserted as one batch; on insert error the function
returns the empty array, otherwise the created rows. -/
def evaluateReadingDb (t : Thresholds) (r : Reading) (insertOk : Bool) : List AlertCandidate :=
  let alerts := candidates t r
  if alerts.length > 0 then
    if insertOk then alerts else []
  else []

/-- A row of `users` as selected by `notifyRelevantUsers`
(`id, email, phone, role` plus the `is_active` filter column);
`email` is NOT NULL in the schema, `phone` is nullable. -/
structure User where
  id : String
  email : String
  phone : Option String
  role : Role
  is_active : Bool
  deriving DecidableEq, Repr

/-- A created alert row as returned by the batch insert and consumed
by the notification fan-out. -/
structure CreatedAlert where
  id : String
  bin_id : String
  severity : Severity
  message : String
  deriving DecidableEq, Repr

/-- A notification request handed to `sendNotification` by
`notifyRelevantUsers`. -/
structure NotifRequest where
  user_id : String
  alert_id : String
  channel : Channel
  message : String
  deriving DecidableEq, Repr

/-- The `users` query filter of `notifyRelevantUsers`:
role in {admin, collector} and `is_active = true`. -/
def relevantUser (u : User) : Bool :=
  (u.role == Role.admin || u.role == Role.collector) && u.is_active

/-- The email request `notifyRelevantUsers` builds for a user. -/
def emailReq (u : User) (a : CreatedAlert) : NotifRequest :=
  { user_id := u.id, alert_id := a.id, channel := Channel.email, message := a.message }

/-- The SMS request `notifyRelevantUsers` builds for a user. -/
def smsReq (u : User) (a : CreatedAlert) : NotifRequest :=
  { user_id := u.id, alert_id := a.id, channel := Channel.sms, message := a.message }

/-- The per-user body of the `notifyRelevantUsers` loop: an email when
`user.email` is truthy, plus an SMS when `user.phone` is truthy and
the alert severity is critical. -/
def userNotifs (a : CreatedAlert) (u : User) : List NotifRequest :=
  (if !(u.email == "") then [emailReq u a] else []) ++
  (if optStrTruthy u.phone && (a.severity == Severity.critical) then [smsReq u a] else [])

/-- Model of `notifyRelevantUsers(alert)`: the sequence of notification
requests dispatched for one alert, given the full `users` table. -/
def notifyRelevantUsers (users : List User) (a : CreatedAlert) : List NotifRequest :=
  ((users.filter relevantUser).map (userNotifs a)).flatten

/-- The per-alert dispatch condition inside `evaluateReading`:
`notifyRelevantUsers` runs only for severities high and critical. -/
def dispatchForAlert (users : List User) (a : CreatedAlert) : List NotifRequest :=
  if a.severity == Severity.high || a.severity == Severity.critical then
    notifyRelevantUsers users a
  else []

/-- A row of `notifications`. -/
structure NotifRow where
  user_id : String
  alert_id : Option String
  channel : Channel
  message : String
  status : NotifStatus
  sent_at : Option Nat
  deriving DecidableEq, Repr

/-- Observable outcome of one `sendNotification` call: the returned
value (`none` models the `null` failure return), the state of the
notification row after the call (`none` when no row was created), and
whether a delivery was attempted. -/
structure SendOutcome where
  result : Option NotifRow
  row : Option NotifRow
  deliveryAttempted : Bool
  deriving DecidableEq, Repr

/-- Model of `sendNotification`:
insert a pending row (abort returning null on insert error), invoke
the channel transport (outcome `delivered`), then update the row to
`sent` with `sent_at` or to `failed` without it. -/
def sendNotification (insertOk delivered : Bool) (userId : String) (alertId : Option String)
    (channel : Channel) (message : String) (now : Nat) : SendOutcome :=
  if insertOk = false then
    { result := none, row := none, deliveryAttempted := false }
  else
    let pendingRow : NotifRow :=
      { user_id := userId, alert_id := strOrNull alertId, channel := channel,
        message := message, status := NotifStatus.pending, sent_at := none }
    let newStatus := if delivered then NotifStatus.sent else NotifStatus.failed
    let finalRow : NotifRow :=
      { pendingRow with
          status := newStatus
          sent_at := if delivered then some now else none }
    { result := some pendingRow, row := some finalRow, deliveryAttempted := true }

/-- A row of `alerts` as stored in the database. -/
structure AlertRow where
  id : String
  bin_id : String
  alert_type : AlertType
  severity : Severity
  message : String
  resolved : Bool
  resolved_at : Option Nat
  resolved_by : Option String
  deriving DecidableEq, Repr

/-- The row created for a candidate by the batch insert: `buildAlert`
sets `resolved: false` and the schema defaults leave `resolved_at` and
`resolved_by` null. -/
def insertedAlertRow (id : String) (c : AlertCandidate) : AlertRow :=
  { id := id, bin_id := c.bin_id, alert_type := c.alert_type, severity := c.severity,
    message := c.message, resolved := c.resolved, resolved_at := none, resolved_by := none }

/-- The effect on one alert row of the collection workflow's
`UPDATE alerts SET resolved, resolved_at, resolved_by
WHERE bin_id = ? AND resolved = false`. -/
def resolveStep (binId : String) (collectedBy : Option String) (now : Nat)
    (a : AlertRow) : AlertRow :=
  if a.bin_id = binId ∧ a.resolved = false then
    { a with
        resolved := true
        resolved_at := some now
        resolved_by := strOrNull collectedBy }
  else a

/-- Model of `resolveOpenAlerts`: the collection workflow's bulk resolution
applied to the whole `alerts` table. -/
def resolveOpenAlerts (binId : String) (collectedBy : Option String) (now : Nat)
    (alerts : List AlertRow) : List AlertRow :=
  alerts.map (resolveStep binId collectedBy now)

/-- The update `resolveAlert` (PATCH /api/alerts/:id) applies to the
targeted row: when `resolved` is present it sets `resolved` and sets
`resolved_at` to now or null; `resolved_by` is written only when the
request supplies a truthy `resolved_by`. -/
def resolveAlertUpdate (resolved : Option Bool) (resolvedBy : Option String) (now : Nat)
    (a : AlertRow) : AlertRow :=
  let a1 :=
    match resolved with
    | none => a
    | some r =>
      { a with resolved := r, resolved_at := if r then some now else none }
  if optStrTruthy resolvedBy then { a1 with resolved_by := resolvedBy } else a1

/-- A row of `bins` (the fields the collection workflow touches). -/
structure BinRow where
  id : String
  fill_level : Rat
  last_emptied : Option Nat
  deriving DecidableEq, Repr

/-- Request body of POST /api/collections. -/
structure CollectionBody where
  bin_id : Option String
  collected_by : Option String
  notes : Option String
  deriving DecidableEq, Repr

/-- A row of `collection_logs` as inserted by `createCollection`. -/
structure CollectionLogRow where
  bin_id : String
  collected_by : Option String
  fill_level_before : Rat
  fill_level_after : Rat
  notes : Option String
  deriving DecidableEq, Repr

/-- Outcomes of the database operations `createCollection` inspects:
the bin lookup (`none` covers both error and missing row) and the
collection-log insert. -/
structure CollectionDb where
  binLookup : Option BinRow
  logInsertOk : Bool
  deriving DecidableEq, Repr

/-- HTTP-level result of `createCollection`. -/
inductive CollectionResult where
  | badRequest
  | notFound
  | storageError
  | created (log : CollectionLogRow)
  deriving DecidableEq, Repr

/-- Mutations performed by one `createCollection` call: the inserted
log, the updated bin row, the alerts table after resolution, and
whether a bin status update was published. -/
structure CollectionEffects where
  logInserted : Option CollectionLogRow
  binAfter : Option BinRow
  alertsAfter : List AlertRow
  published : Bool
  deriving DecidableEq, Repr

/-- The no-mutation effect record for aborted collection requests. -/
def noCollectionEffects (alerts : List AlertRow) : CollectionEffects :=
  { logInserted := none, binAfter := none, alertsAfter := alerts, published := false }

/-- Model of `createCollection` (POST /api/collections): validate `bin_id`,
resolve the bin, insert the collection log (500 aborts), reset the
bin's fill to 0 with `last_emptied = now`, resolve the bin's open
alerts, publish the bin update. -/
def createCollection (db : CollectionDb) (alerts : List AlertRow) (body : CollectionBody)
    (now : Nat) : CollectionResult × CollectionEffects :=
  if optStrTruthy body.bin_id = false then
    (CollectionResult.badRequest, noCollectionEffects alerts)
  else
    match body.bin_id with
    | none => (CollectionResult.badRequest, noCollectionEffects alerts)
    | some bid =>
      match db.binLookup with
      | none => (CollectionResult.notFound, noCollectionEffects alerts)
      | some bin =>
        if db.logInsertOk = false then
          (CollectionResult.storageError, noCollectionEffects alerts)
        else
          let log : CollectionLogRow :=
            { bin_id := bid, collected_by := strOrNull body.collected_by,
              fill_level_before := bin.fill_level, fill_level_after := 0,
              notes := strOrNull body.notes }
          let binAfter : BinRow := { bin with fill_level := 0, last_emptied := some now }
          let alertsAfter := resolveOpenAlerts bid body.collected_by now alerts
          (CollectionResult.created log,
           { logInserted := some log, binAfter := some binAfter,
             alertsAfter := alertsAfter, published := true })

/-- Request body of POST /api/devices/data as destructured by
`receiveSensorData`. -/
structure SensorBody where
  bin_code : Option String
  fill_level : Option Rat
  waste_type : Option String
  weight : Option Rat
  gas_level : Option Rat
  temperature : Option Rat
  moisture : Option Rat
  battery_level : Option Rat
  deriving DecidableEq, Repr

/-- Outcomes of the database operations `receiveSensorData` inspects:
the bin lookup by `bin_code` (yielding the bin id), the sensor-reading
insert, and the alerts batch insert inside `evaluateReading`. -/
structure IngestDb where
  binLookup : Option String
  readingInsertOk : Bool
  alertInsertOk : Bool
  deriving DecidableEq, Repr

/-- HTTP-level result of `receiveSensorData`: 400, 404, 500, or 201
with the stored reading and `alerts_generated`. -/
inductive IngestResult where
  | invalidInput
  | notFound
  | storageError
  | success (reading : Reading) (alertsGenerated : Nat)
  deriving DecidableEq, Repr

/-- Side effects performed by one `receiveSensorData` call. -/
structure IngestEffects where
  readingInserted : Option Reading
  binFillUpdated : Option Rat
  readingPublished : Bool
  thresholdsEvaluated : Bool
  alertsPersisted : List AlertCandidate
  deriving DecidableEq, Repr

/-- The no-effect record for aborted ingestion requests. -/
def noIngestEffects : IngestEffects :=
  { readingInserted := none, binFillUpdated := none, readingPublished := false,
    thresholdsEvaluated := false, alertsPersisted := [] }

/-- The sensor-reading row inserted by `receiveSensorData`: every
optional field goes through the `|| null` normalisation. -/
def normalizedReading (binId : String) (fl : Rat) (body : SensorBody) : Reading :=
  { bin_id := binId, fill_level := fl,
    waste_type := strOrNull body.waste_type,
    weight := numOrNull body.weight,
    gas_level := numOrNull body.gas_level,
    temperature := numOrNull body.temperature,
    moisture := numOrNull body.moisture,
    battery_level := numOrNull body.battery_level }

/-- Model of `receiveSensorData` (POST /api/devices/data): validate
`bin_code`/`fill_level`, range-check `fill_level`, resolve the bin by
code (404), insert the reading with `|| null` normalisation of every
optional field (500 aborts all further steps), update the bin's fill,
publish the reading, and run `evaluateReading`. -/
def receiveSensorData (db : IngestDb) (body : SensorBody) : IngestResult × IngestEffects :=
  if optStrTruthy body.bin_code = false ∨ body.fill_level = none then
    (IngestResult.invalidInput, noIngestEffects)
  else
    match body.fill_level with
    | none => (IngestResult.invalidInput, noIngestEffects)
    | some fl =>
      if fl < 0 ∨ fl > 100 then
        (IngestResult.invalidInput, noIngestEffects)
      else
        match db.binLookup with
        | none => (IngestResult.notFound, noIngestEffects)
        | some binId =>
          if db.readingInsertOk = false then
            (IngestResult.storageError, noIngestEffects)
          else
            let reading := normalizedReading binId fl body
            let created := evaluateReadingDb THRESHOLDS reading db.alertInsertOk
            (IngestResult.success reading created.length,
             { readingInserted := some reading, binFillUpdated := some fl,
               readingPublished := true, thresholdsEvaluated := true,
               alertsPersisted := created })

/-- A request body is valid when `bin_code` is truthy and `fill_level`
is present and in range. -/
def validSensorBody (body : SensorBody) : Prop :=
  optStrTruthy body.bin_code = true ∧
  ∃ fl, body.fill_level = some fl ∧ 0 ≤ fl ∧ fl ≤ 100

/-- A concrete reading with fill 72 and battery 15 (both medium tier). -/
def readingW1 : Reading :=
  { bin_id := "b1", fill_level := 72, waste_type := none, weight := none,
    gas_level := none, temperature := none, moisture := none, battery_level := some 15 }

/-- A concrete reading with fill 85 and battery 5 (the multi-breach
example of the spec). -/
def readingW2 : Reading :=
  { bin_id := "b1", fill_level := 85, waste_type := none, weight := none,
    gas_level := none, temperature := none, moisture := none, battery_level := some 5 }

/-- A concrete ingestion request body with fill 97 and no optional fields. -/
def bodyW1 : SensorBody :=
  { bin_code := some ("BIN-001"), fill_level := some 97, waste_type := none,
    weight := none, gas_level := none, temperature := none, moisture := none,
    battery_level := none }

/-- A concrete body whose `bin_code` is absent. -/
def bodyNoCode : SensorBody :=
  { bin_code := none, fill_level := some 50, waste_type := none,
    weight := none, gas_level := none, temperature := none, moisture := none,
    battery_level := none }

/-- A concrete body submitting the falsy values battery 0 and gas 0. -/
def bodyBattZero : SensorBody :=
  { bin_code := some ("BIN-001"), fill_level := some 30, waste_type := none,
    weight := none, gas_level := some 0, temperature := none, moisture := none,
    battery_level := some 0 }

/-- Database outcomes: bin found, reading insert ok, alert insert fails. -/
def dbAlertFail : IngestDb :=
  { binLookup := some ("bin-uuid-1"), readingInsertOk := true, alertInsertOk := false }

/-- Database outcomes: everything succeeds. -/
def dbAllOk : IngestDb :=
  { binLookup := some ("bin-uuid-1"), readingInsertOk := true, alertInsertOk := true }

/-- Database outcomes: no bin matches the code. -/
def dbNotFound : IngestDb :=
  { binLookup := none, readingInsertOk := true, alertInsertOk := true }

/-- Database outcomes: the sensor-reading insert fails. -/
def dbReadingFail : IngestDb :=
  { binLookup := some ("bin-uuid-1"), readingInsertOk := false, alertInsertOk := true }

/-- A concrete bin that is already empty (fill 0). -/
def binEmpty : BinRow :=
  { id := "bin-uuid-1", fill_level := 0, last_emptied := none }

/-- Collection database outcomes: bin found (already at fill 0), log insert ok. -/
def colDbOk : CollectionDb :=
  { binLookup := some binEmpty, logInsertOk := true }

/-- Collection database outcomes: bin missing. -/
def colDbMissing : CollectionDb :=
  { binLookup := none, logInsertOk := true }

/-- A concrete collection request body. -/
def colBody : CollectionBody :=
  { bin_id := some ("bin-uuid-1"), collected_by := some ("u9"), notes := none }

/-- A concrete open alert for the collected bin. -/
def openAlert : AlertRow :=
  { id := "a1", bin_id := "bin-uuid-1", alert_type := AlertType.fill_critical,
    severity := Severity.high, message := "m1", resolved := false,
    resolved_at := none, resolved_by := none }

/-- A concrete alert for the same bin that is already resolved. -/
def closedAlert : AlertRow :=
  { id := "a2", bin_id := "bin-uuid-1", alert_type := AlertType.fill_warning,
    severity := Severity.medium, message := "m2", resolved := true,
    resolved_at := some 3, resolved_by := some ("u2") }

/-- A concrete alert that was resolved by user u7 and is then manually
un-resolved (the C9 scenario). -/
def alertResolvedByU7 : AlertRow :=
  { id := "a3", bin_id := "b1", alert_type := AlertType.fill_critical,
    severity := Severity.high, message := "m3", resolved := true,
    resolved_at := some 5, resolved_by := some ("u7") }

/-- An active admin whose stored email is the empty string. -/
def userNoEmail : User :=
  { id := "u1", email := "", phone := some ("0700000000"), role := Role.admin,
    is_active := true }

/-- An active collector with email and phone present. -/
def userOk : User :=
  { id := "u2", email := "c@example.com", phone := some ("0711111111"),
    role := Role.collector, is_active := true }

/-- A created alert of severity high. -/
def alertHigh : CreatedAlert :=
  { id := "al-1", bin_id := "b1", severity := Severity.high, message := "mh" }

/-- A created alert of severity critical. -/
def alertCrit : CreatedAlert :=
  { id := "al-2", bin_id := "b1", severity := Severity.critical, message := "mc" }

/-- C1: the Threshold Policy maps each measured field to at most one
candidate by the tier table: fill in [50,80) gives exactly
fill_warning/medium, [80,95) gives fill_critical/high, at least 95
gives fill_critical/critical, below 50 nothing; battery at most 10
gives maintenance_needed/critical, in (10,20] maintenance_needed/medium,
above 20 or absent nothing; gas at least 500 gives gas_detected/critical,
in [200,500) gas_detected/high, else nothing; temperature at least 60
gives maintenance_needed/critical, in [45,60) maintenance_needed/high,
else nothing. -/
theorem C1_threshold_tiers (r : Reading) :
    (r.fill_level < 50 → fillCandidates THRESHOLDS r = [])
  ∧ (50 ≤ r.fill_level ∧ r.fill_level < 80 →
      fillCandidates THRESHOLDS r =
        [buildAlert r AlertType.fill_warning Severity.medium (fillWarnMsg r.fill_level)])
  ∧ (80 ≤ r.fill_level ∧ r.fill_level < 95 →
      fillCandidates THRESHOLDS r =
        [buildAlert r AlertType.fill_critical Severity.high (fillHighMsg r.fill_level)])
  ∧ (95 ≤ r.fill_level →
      fillCandidates THRESHOLDS r =
        [buildAlert r AlertType.fill_critical Severity.critical (fillFlashMsg r.fill_level)])
  ∧ (r.battery_level = none → battCandidates THRESHOLDS r = [])
  ∧ (∀ b, r.battery_level = some b →
      (b ≤ 10 → battCandidates THRESHOLDS r =
        [buildAlert r AlertType.maintenance_needed Severity.critical (battCritMsg b)])
      ∧ (10 < b ∧ b ≤ 20 → battCandidates THRESHOLDS r =
        [buildAlert r AlertType.maintenance_needed Severity.medium (battWarnMsg b)])
      ∧ (20 < b → battCandidates THRESHOLDS r = []))
  ∧ (r.gas_level = none → gasCandidates THRESHOLDS r = [])
  ∧ (∀ g, r.gas_level = some g →
      (500 ≤ g → gasCandidates THRESHOLDS r =
        [buildAlert r AlertType.gas_detected Severity.critical (gasCritMsg g)])
      ∧ (200 ≤ g ∧ g < 500 → gasCandidates THRESHOLDS r =
        [buildAlert r AlertType.gas_detected Severity.high (gasWarnMsg g)])
      ∧ (g < 200 → gasCandidates THRESHOLDS r = []))
  ∧ (r.temperature = none → tempCandidates THRESHOLDS r = [])
  ∧ (∀ v, r.temperature = some v →
      (60 ≤ v → tempCandidates THRESHOLDS r =
        [buildAlert r AlertType.maintenance_needed Severity.critical (tempCritMsg v)])
      ∧ (45 ≤ v ∧ v < 60 → tempCandidates THRESHOLDS r =
        [buildAlert r AlertType.maintenance_needed Severity.high (tempWarnMsg v)])
      ∧ (v < 45 → tempCandidates THRESHOLDS r = [])) := by
  refine ⟨?_, ?_, ?_, ?_, ?_, ?_, ?_, ?_, ?_, ?_⟩
  · intro h
    simp only [fillCandidates, THRESHOLDS]
    split_ifs <;> first | rfl | (exfalso; linarith)
  · rintro ⟨h1, h2⟩
    simp only [fillCandidates, THRESHOLDS]
    split_ifs <;> first | rfl | (exfalso; linarith)
  · rintro ⟨h1, h2⟩
    simp only [fillCandidates, THRESHOLDS]
    split_ifs <;> first | rfl | (exfalso; linarith)
  · intro h
    simp only [fillCandidates, THRESHOLDS]
    split_ifs <;> first | rfl | (exfalso; linarith)
  · intro h
    simp only [battCandidates, h]
  · intro b hb
    refine ⟨?_, ?_, ?_⟩ <;> intro h <;>
      simp only [battCandidates, hb, THRESHOLDS] <;>
      split_ifs <;> first | rfl | (exfalso; linarith)
  · intro h
    simp only [gasCandidates, h]
  · intro g hg
    refine ⟨?_, ?_, ?_⟩ <;> intro h <;>
      simp only [gasCandidates, hg, THRESHOLDS] <;>
      split_ifs <;> first | rfl | (exfalso; linarith)
  · intro h
    simp only [tempCandidates, h]
  · intro v hv
    refine ⟨?_, ?_, ?_⟩ <;> intro h <;>
      simp only [tempCandidates, hv, THRESHOLDS] <;>
      split_ifs <;> first | rfl | (exfalso; linarith)

/-- Witness for C1 at fill 72 / battery 15. -/
theorem C1_threshold_tiers_witness :
    fillCandidates THRESHOLDS readingW1 =
      [buildAlert readingW1 AlertType.fill_warning Severity.medium (fillWarnMsg 72)]
  ∧ battCandidates THRESHOLDS readingW1 =
      [buildAlert readingW1 AlertType.maintenance_needed Severity.medium (battWarnMsg 15)] := by
  have h := C1_threshold_tiers readingW1
  exact ⟨h.2.1 (by decide), ((h.2.2.2.2.2.1 15 rfl).2.1) (by decide)⟩

/-- C2: the Threshold Policy's candidate sequence is ordered fill,
gas, temperature, battery; each field contributes at most one
candidate; an absent gas, temperature, or battery field contributes no
candidate; and the multi-breach reading fill 85, battery 5 yields one
candidate per breached field in that order. -/
theorem C2_order_and_multiplicity (t : Thresholds) (r : Reading) :
    candidates t r =
      fillCandidates t r ++ gasCandidates t r ++ tempCandidates t r ++ battCandidates t r
  ∧ (fillCandidates t r).length ≤ 1
  ∧ (gasCandidates t r).length ≤ 1
  ∧ (tempCandidates t r).length ≤ 1
  ∧ (battCandidates t r).length ≤ 1
  ∧ (r.gas_level = none → gasCandidates t r = [])
  ∧ (r.temperature = none → tempCandidates t r = [])
  ∧ (r.battery_level = none → battCandidates t r = [])
  ∧ candidates THRESHOLDS readingW2 =
      [buildAlert readingW2 AlertType.fill_critical Severity.high (fillHighMsg 85),
       buildAlert readingW2 AlertType.maintenance_needed Severity.critical (battCritMsg 5)] := by
  refine ⟨rfl, ?_, ?_, ?_, ?_, ?_, ?_, ?_, ?_⟩
  · simp only [fillCandidates]
    split_ifs <;> simp
  · simp only [gasCandidates]
    cases r.gas_level <;> simp <;> split_ifs <;> simp
  · simp only [tempCandidates]
    cases r.temperature <;> simp <;> split_ifs <;> simp
  · simp only [battCandidates]
    cases r.battery_level <;> simp <;> split_ifs <;> simp
  · intro h
    simp only [gasCandidates, h]
  · intro h
    simp only [tempCandidates, h]
  · intro h
    simp only [battCandidates, h]
  · decide

/-- Witness for C2 at a reading with no optional fields. -/
theorem C2_order_and_multiplicity_witness :
    gasCandidates THRESHOLDS readingW2 = []
  ∧ tempCandidates THRESHOLDS readingW2 = [] := by
  have h := C2_order_and_multiplicity THRESHOLDS readingW2
  exact ⟨h.2.2.2.2.2.1 rfl, h.2.2.2.2.2.2.1 rfl⟩

/-- C3: alert recording is all-or-nothing: when the batch insert of
alert rows errors, `evaluateReading` returns the empty sequence, and
the ingestion request still reports success for the reading with
`alerts_generated` equal to 0 and no persisted alerts. -/
theorem C3_alert_atomicity (t : Thresholds) (r : Reading) (db : IngestDb)
    (body : SensorBody) :
    evaluateReadingDb t r false = []
  ∧ (∀ bid fl, optStrTruthy body.bin_code = true → body.fill_level = some fl →
      0 ≤ fl → fl ≤ 100 → db.binLookup = some bid → db.readingInsertOk = true →
      db.alertInsertOk = false →
      receiveSensorData db body =
        (IngestResult.success (normalizedReading bid fl body) 0,
         { readingInserted := some (normalizedReading bid fl body),
           binFillUpdated := some fl, readingPublished := true,
           thresholdsEvaluated := true, alertsPersisted := [] })) := by
  have hE : ∀ (t' : Thresholds) (r' : Reading), evaluateReadingDb t' r' false = [] := by
    intro t' r'
    simp [evaluateReadingDb]
  refine ⟨hE t r, ?_⟩
  intro bid fl hbc hfl h0 h100 hbin hri hai
  simp [receiveSensorData, hfl, hbc, hbin, hri, hai, not_lt.mpr h0, not_lt.mpr h100, hE]

/-- Witness for C3: fill 97 with a failing alert insert yields success
with zero alerts generated. -/
theorem C3_alert_atomicity_witness :
    receiveSensorData dbAlertFail bodyW1 =
      (IngestResult.success (normalizedReading ("bin-uuid-1") 97 bodyW1) 0,
       { readingInserted := some (normalizedReading ("bin-uuid-1") 97 bodyW1),
         binFillUpdated := some 97, readingPublished := true,
         thresholdsEvaluated := true, alertsPersisted := [] }) := by
  exact (C3_alert_atomicity THRESHOLDS readingW1 dbAlertFail bodyW1).2
    ("bin-uuid-1") 97 (by decide) rfl (by decide) (by decide) rfl rfl rfl

/-- C4: the submit-reading request fails InvalidInput (400) before any
persistence when `bin_code` is missing, `fill_level` is missing, or
`fill_level` is out of [0,100]; fails NotFound (404) before any
persistence when no bin matches; and fails StorageError (500) with no
further step when the sensor-reading insert fails. -/
theorem C4_ingest_validation (db : IngestDb) (body : SensorBody) :
    ((optStrTruthy body.bin_code = false ∨ body.fill_level = none) →
        receiveSensorData db body = (IngestResult.invalidInput, noIngestEffects))
  ∧ (∀ fl, body.fill_level = some fl → (fl < 0 ∨ fl > 100) →
        receiveSensorData db body = (IngestResult.invalidInput, noIngestEffects))
  ∧ (validSensorBody body → db.binLookup = none →
        receiveSensorData db body = (IngestResult.notFound, noIngestEffects))
  ∧ (validSensorBody body → ∀ bid, db.binLookup = some bid →
        db.readingInsertOk = false →
        receiveSensorData db body = (IngestResult.storageError, noIngestEffects)) := by
  refine ⟨?_, ?_, ?_, ?_⟩
  · intro h
    simp only [receiveSensorData, if_pos h]
  · intro fl hfl hrange
    by_cases hbc : optStrTruthy body.bin_code = false
    · simp [receiveSensorData, hbc]
    · have hb : optStrTruthy body.bin_code = true := by
        cases h : optStrTruthy body.bin_code
        · exact absurd h hbc
        · rfl
      rcases hrange with h | h <;> simp [receiveSensorData, hfl, hb, h]
  · rintro ⟨hbc, fl, hfl, h0, h100⟩ hbin
    simp [receiveSensorData, hfl, hbc, hbin, not_lt.mpr h0, not_lt.mpr h100]
  · rintro ⟨hbc, fl, hfl, h0, h100⟩ bid hbin hri
    simp [receiveSensorData, hfl, hbc, hbin, hri, not_lt.mpr h0, not_lt.mpr h100]

/-- Witness for C4: a missing bin code, an unknown bin, and a failing
reading insert each abort with the right status and no effects. -/
theorem C4_ingest_validation_witness :
    receiveSensorData dbAllOk bodyNoCode = (IngestResult.invalidInput, noIngestEffects)
  ∧ receiveSensorData dbNotFound bodyW1 = (IngestResult.notFound, noIngestEffects)
  ∧ receiveSensorData dbReadingFail bodyW1 = (IngestResult.storageError, noIngestEffects) := by
  refine ⟨?_, ?_, ?_⟩
  · exact (C4_ingest_validation dbAllOk bodyNoCode).1 (Or.inl rfl)
  · exact (C4_ingest_validation dbNotFound bodyW1).2.2.1
      ⟨rfl, 97, rfl, by decide, by decide⟩ rfl
  · exact (C4_ingest_validation dbReadingFail bodyW1).2.2.2
      ⟨rfl, 97, rfl, by decide, by decide⟩ ("bin-uuid-1") rfl rfl

/-- C5: for every collection request on an existing bin (with the log
insert succeeding), the bin's fill becomes exactly 0 and
`last_emptied` is set, regardless of the prior fill value, and the
inserted CollectionLog has `fill_level_before` equal to the bin's fill
at the start and `fill_level_after` equal to 0; when the bin does not
exist the request fails NotFound with no mutation. -/
theorem C5_collection_workflow (db : CollectionDb) (alerts : List AlertRow)
    (body : CollectionBody) (now : Nat) :
    (∀ bid, body.bin_id = some bid → optStrTruthy body.bin_id = true →
      ∀ bin, db.binLookup = some bin → db.logInsertOk = true →
      createCollection db alerts body now =
        (CollectionResult.created
          { bin_id := bid, collected_by := strOrNull body.collected_by,
            fill_level_before := bin.fill_level, fill_level_after := 0,
            notes := strOrNull body.notes },
         { logInserted := some
             { bin_id := bid, collected_by := strOrNull body.collected_by,
               fill_level_before := bin.fill_level, fill_level_after := 0,
               notes := strOrNull body.notes },
           binAfter := some { bin with fill_level := 0, last_emptied := some now },
           alertsAfter := resolveOpenAlerts bid body.collected_by now alerts,
           published := true }))
  ∧ (optStrTruthy body.bin_id = true → db.binLookup = none →
      createCollection db alerts body now =
        (CollectionResult.notFound, noCollectionEffects alerts)) := by
  constructor
  · intro bid hbid htruthy bin hbin hlog
    have ht : optStrTruthy (some bid) = true := by
      rw [← hbid]
      exact htruthy
    simp [createCollection, hbid, ht, hbin, hlog]
  · intro htruthy hbin
    have hbid : ∃ bid, body.bin_id = some bid := by
      cases h : body.bin_id
      · rw [h] at htruthy
        exact absurd htruthy (by simp [optStrTruthy])
      · exact ⟨_, rfl⟩
    obtain ⟨bid, hbid⟩ := hbid
    have ht : optStrTruthy (some bid) = true := by
      rw [← hbid]
      exact htruthy
    simp [createCollection, hbid, ht, hbin]

/-- Witness for C5: collecting a bin already at fill 0 still resets
fill to 0, sets `last_emptied`, and logs before 0 / after 0; a missing
bin yields NotFound with no mutation. -/
theorem C5_collection_workflow_witness :
    createCollection colDbOk [openAlert, closedAlert] colBody 42 =
      (CollectionResult.created
        { bin_id := "bin-uuid-1", collected_by := some ("u9"),
          fill_level_before := 0, fill_level_after := 0, notes := none },
       { logInserted := some
           { bin_id := "bin-uuid-1", collected_by := some ("u9"),
             fill_level_before := 0, fill_level_after := 0, notes := none },
         binAfter := some { id := "bin-uuid-1", fill_level := 0, last_emptied := some 42 },
         alertsAfter := resolveOpenAlerts ("bin-uuid-1") (some ("u9")) 42
           [openAlert, closedAlert],
         published := true })
  ∧ createCollection colDbMissing [openAlert] colBody 42 =
      (CollectionResult.notFound, noCollectionEffects [openAlert]) := by
  constructor
  · exact (C5_collection_workflow colDbOk [openAlert, closedAlert] colBody 42).1
      ("bin-uuid-1") rfl (by decide) binEmpty rfl rfl
  · exact (C5_collection_workflow colDbMissing [openAlert] colBody 42).2 (by decide) rfl

/-- C6: after `resolveOpenAlerts` runs for a bin, every alert of that
bin that had `resolved = false` has `resolved = true`, `resolved_by`
set to the collector (normalised by `|| null`), and `resolved_at` set;
alerts already resolved, and alerts of other bins, are untouched; and
a re-run is a safe no-op (idempotent). -/
theorem C6_resolve_open_alerts (bid : String) (c : Option String) (now now2 : Nat)
    (l : List AlertRow) :
    resolveOpenAlerts bid c now l = l.map (resolveStep bid c now)
  ∧ (∀ a, a.bin_id = bid → a.resolved = false →
        resolveStep bid c now a =
          { a with
              resolved := true
              resolved_at := some now
              resolved_by := strOrNull c })
  ∧ (∀ a, a.resolved = true → resolveStep bid c now a = a)
  ∧ (∀ a, a.bin_id ≠ bid → resolveStep bid c now a = a)
  ∧ resolveOpenAlerts bid c now2 (resolveOpenAlerts bid c now l) =
      resolveOpenAlerts bid c now l := by
  have hstep : ∀ a, resolveStep bid c now2 (resolveStep bid c now a) =
      resolveStep bid c now a := by
    intro a
    unfold resolveStep
    split_ifs with h1 h2 h3 <;> first | rfl | simp_all
  refine ⟨rfl, ?_, ?_, ?_, ?_⟩
  · intro a hb hr
    unfold resolveStep
    rw [if_pos ⟨hb, hr⟩]
  · intro a hr
    unfold resolveStep
    rw [if_neg]
    simp [hr]
  · intro a hb
    unfold resolveStep
    rw [if_neg]
    simp [hb]
  · unfold resolveOpenAlerts
    rw [List.map_map]
    exact List.map_congr_left (fun a _ => hstep a)

/-- Witness for C6 on a concrete two-alert table: the open alert is
resolved with collector and timestamp, the closed one is untouched. -/
theorem C6_resolve_open_alerts_witness :
    resolveStep ("bin-uuid-1") (some ("u9")) 42 openAlert =
      { id := "a1", bin_id := "bin-uuid-1", alert_type := AlertType.fill_critical,
        severity := Severity.high, message := "m1", resolved := true,
        resolved_at := some 42, resolved_by := some ("u9") }
  ∧ resolveStep ("bin-uuid-1") (some ("u9")) 42 closedAlert = closedAlert
  ∧ resolveOpenAlerts ("bin-uuid-1") (some ("u9")) 7
      (resolveOpenAlerts ("bin-uuid-1") (some ("u9")) 42 [openAlert, closedAlert]) =
      resolveOpenAlerts ("bin-uuid-1") (some ("u9")) 42 [openAlert, closedAlert] := by
  have h := C6_resolve_open_alerts ("bin-uuid-1") (some ("u9")) 42 7 [openAlert, closedAlert]
  refine ⟨?_, ?_, ?_⟩
  · rw [h.2.1 openAlert rfl rfl]
    decide
  · exact h.2.2.1 closedAlert rfl
  · exact h.2.2.2.2

/-- C7: `sendNotification` first inserts a pending row; if that insert
fails no delivery is attempted and the call signals failure (null);
a created notification always leaves the call as exactly one of sent
(with `sent_at` set) or failed (`sent_at` absent), never pending. -/
theorem C7_notification_lifecycle (insertOk delivered : Bool) (userId : String)
    (alertId : Option String) (channel : Channel) (message : String) (now : Nat) :
    (insertOk = false →
        sendNotification insertOk delivered userId alertId channel message now =
          { result := none, row := none, deliveryAttempted := false })
  ∧ (insertOk = true →
        (sendNotification insertOk delivered userId alertId channel message now).result ≠ none
      ∧ (sendNotification insertOk delivered userId alertId channel message now).deliveryAttempted = true
      ∧ ∀ rrow,
          (sendNotification insertOk delivered userId alertId channel message now).row = some rrow →
          rrow.status ≠ NotifStatus.pending
        ∧ ((rrow.status = NotifStatus.sent ∧ rrow.sent_at = some now)
           ∨ (rrow.status = NotifStatus.failed ∧ rrow.sent_at = none))
      ∧ (sendNotification insertOk delivered userId alertId channel message now).row ≠ none) := by
  constructor
  · intro h
    simp [sendNotification, h]
  · intro h
    subst h
    cases delivered <;> simp [sendNotification] <;> intro rrow hr <;> simp [hr]

/-- Witness for C7: a failing insert attempts no delivery; a failing
delivery leaves the row failed with no `sent_at`. -/
theorem C7_notification_lifecycle_witness :
    sendNotification false true ("u1") none Channel.email ("m") 7 =
      { result := none, row := none, deliveryAttempted := false }
  ∧ (sendNotification true false ("u1") none Channel.email ("m") 7).deliveryAttempted = true := by
  have h1 := C7_notification_lifecycle false true ("u1") none Channel.email ("m") 7
  have h2 := C7_notification_lifecycle true false ("u1") none Channel.email ("m") 7
  exact ⟨h1.1 rfl, (h2.2 rfl).2.1⟩

/-- Counterexample to C8 as stated: an active admin whose stored email
is empty (falsy) receives no email notification for a high alert —
the fan-out for this alert is empty, although the claim requires every
active admin/collector to receive an email. -/
theorem C8_fanout_counterexample :
    relevantUser userNoEmail = true
  ∧ alertHigh.severity = Severity.high
  ∧ dispatchForAlert [userNoEmail] alertHigh = [] := by
  decide

/-- C8 (amended): notifications are fanned out exactly for created
alerts of severity high or critical; for each such alert every active
admin/collector user with a truthy (non-empty) email receives an email
notification, and additionally an sms notification iff the user's
phone is truthy and the alert's severity is critical; no notifications
for other severities. -/
theorem C8_fanout_policy (users : List User) (a : CreatedAlert) (n : NotifRequest) :
    n ∈ dispatchForAlert users a ↔
      ((a.severity = Severity.high ∨ a.severity = Severity.critical)
       ∧ ∃ u, u ∈ users ∧ (u.role = Role.admin ∨ u.role = Role.collector)
           ∧ u.is_active = true
           ∧ ((u.email ≠ "" ∧ n = emailReq u a) ∨
              (optStrTruthy u.phone = true ∧ a.severity = Severity.critical
                ∧ n = smsReq u a))) := by
  have hUN : ∀ u : User, n ∈ userNotifs a u ↔
      ((u.email ≠ "" ∧ n = emailReq u a) ∨
       (optStrTruthy u.phone = true ∧ a.severity = Severity.critical
         ∧ n = smsReq u a)) := by
    intro u
    simp only [userNotifs, List.mem_append]
    constructor
    · rintro (h | h)
      · by_cases he : u.email = ""
        · rw [if_neg (by simp [he])] at h
          cases h
        · rw [if_pos (by simp [he])] at h
          exact Or.inl ⟨he, by simpa using h⟩
      · by_cases hc : (optStrTruthy u.phone && (a.severity == Severity.critical)) = true
        · rcases Bool.and_eq_true _ _ |>.mp hc with ⟨hp, hcrit⟩
          rw [if_pos hc] at h
          exact Or.inr ⟨hp, by simpa using hcrit, by simpa using h⟩
        · rw [if_neg hc] at h
          cases h
    · rintro (⟨he, rfl⟩ | ⟨hp, hcrit, rfl⟩)
      · left
        rw [if_pos (by simp [he])]
        exact List.mem_singleton.mpr rfl
      · right
        rw [if_pos (by simp [hp, hcrit])]
        exact List.mem_singleton.mpr rfl
  have hREL : ∀ u : User, relevantUser u = true ↔
      ((u.role = Role.admin ∨ u.role = Role.collector) ∧ u.is_active = true) := by
    intro u
    simp [relevantUser, Bool.and_eq_true, Bool.or_eq_true]
  have hNRU : n ∈ notifyRelevantUsers users a ↔
      ∃ u, u ∈ users ∧ relevantUser u = true ∧ n ∈ userNotifs a u := by
    constructor
    · intro h
      obtain ⟨l, hl, hnl⟩ := List.mem_flatten.mp h
      obtain ⟨u, hu, rfl⟩ := List.mem_map.mp hl
      obtain ⟨huu, hrel⟩ := List.mem_filter.mp hu
      exact ⟨u, huu, hrel, hnl⟩
    · rintro ⟨u, hu, hrel, hn⟩
      exact List.mem_flatten.mpr
        ⟨userNotifs a u, List.mem_map.mpr ⟨u, List.mem_filter.mpr ⟨hu, hrel⟩, rfl⟩, hn⟩
  by_cases hs : (a.severity == Severity.high || a.severity == Severity.critical) = true
  · have hsP : a.severity = Severity.high ∨ a.severity = Severity.critical := by
      rcases Bool.or_eq_true _ _ |>.mp hs with h | h
      · exact Or.inl (by simpa using h)
      · exact Or.inr (by simpa using h)
    unfold dispatchForAlert
    rw [if_pos hs, hNRU]
    constructor
    · rintro ⟨u, hu, hrel, hn⟩
      exact ⟨hsP, u, hu, ((hREL u).mp hrel).1, ((hREL u).mp hrel).2, (hUN u).mp hn⟩
    · rintro ⟨-, u, hu, hrole, hact, hn⟩
      exact ⟨u, hu, (hREL u).mpr ⟨hrole, hact⟩, (hUN u).mpr hn⟩
  · have hsP : ¬(a.severity = Severity.high ∨ a.severity = Severity.critical) := by
      rintro (h | h) <;> (rw [h] at hs; simp at hs)
    unfold dispatchForAlert
    rw [if_neg hs]
    simp [hsP]

/-- Witness for C8 (amended): a collector with email and phone present
gets both the email and the sms for a critical alert. -/
theorem C8_fanout_policy_witness :
    emailReq userOk alertCrit ∈ dispatchForAlert [userOk] alertCrit
  ∧ smsReq userOk alertCrit ∈ dispatchForAlert [userOk] alertCrit := by
  constructor
  · exact (C8_fanout_policy [userOk] alertCrit (emailReq userOk alertCrit)).mpr
      ⟨Or.inr rfl, userOk, by simp, Or.inr rfl, rfl, Or.inl ⟨by decide, rfl⟩⟩
  · exact (C8_fanout_policy [userOk] alertCrit (smsReq userOk alertCrit)).mpr
      ⟨Or.inr rfl, userOk, by simp, Or.inr rfl, rfl, Or.inr ⟨by decide, rfl, rfl⟩⟩

/-- Counterexample to C9 as stated: un-resolving (resolved=false,
no resolved_by supplied) an alert previously resolved by user u7
clears `resolved_at` but leaves `resolved_by` present, so
`resolved = false` does not imply `resolved_by` is absent. -/
theorem C9_resolution_counterexample :
    (resolveAlertUpdate (some false) none 10 alertResolvedByU7).resolved = false
  ∧ (resolveAlertUpdate (some false) none 10 alertResolvedByU7).resolved_at = none
  ∧ (resolveAlertUpdate (some false) none 10 alertResolvedByU7).resolved_by = some ("u7") := by
  decide

/-- C9 (amended): every alert created by the alert engine starts with
`resolved = false` and both resolution fields absent; the manual
un-resolution path (resolved=false) clears `resolved_at` only, leaving
`resolved_by` unchanged unless the request supplies a truthy
`resolved_by`, in which case it is set to that value. -/
theorem C9_resolution_state (r : Reading) (t : AlertType) (s : Severity) (m id : String)
    (rb : Option String) (now : Nat) (a : AlertRow) :
    (insertedAlertRow id (buildAlert r t s m)).resolved = false
  ∧ (insertedAlertRow id (buildAlert r t s m)).resolved_at = none
  ∧ (insertedAlertRow id (buildAlert r t s m)).resolved_by = none
  ∧ (resolveAlertUpdate (some false) rb now a).resolved = false
  ∧ (resolveAlertUpdate (some false) rb now a).resolved_at = none
  ∧ (resolveAlertUpdate (some false) rb now a).resolved_by =
      (if optStrTruthy rb then rb else a.resolved_by) := by
  refine ⟨rfl, rfl, rfl, ?_, ?_, ?_⟩ <;>
    (unfold resolveAlertUpdate; split_ifs <;> rfl)

/-- C10: the ingestion endpoint stores every falsy-valued optional
sensor field as null (in particular the number 0), so a reading
submitted with battery 0 (or gas 0) is treated as having no battery
(gas) measurement and produces no battery (gas) candidate, even though
0 is at or below the critical battery threshold. -/
theorem C10_falsy_zero_fields (db : IngestDb) (body : SensorBody) (bid : String) (fl : Rat) :
    numOrNull (some 0) = none
  ∧ strOrNull (some "") = none
  ∧ normalizedReading bid fl body =
      { bin_id := bid, fill_level := fl, waste_type := strOrNull body.waste_type,
        weight := numOrNull body.weight, gas_level := numOrNull body.gas_level,
        temperature := numOrNull body.temperature, moisture := numOrNull body.moisture,
        battery_level := numOrNull body.battery_level }
  ∧ (body.battery_level = some 0 →
        (normalizedReading bid fl body).battery_level = none
      ∧ battCandidates THRESHOLDS (normalizedReading bid fl body) = []
      ∧ (0:Rat) ≤ THRESHOLDS.battery.critical)
  ∧ (body.gas_level = some 0 →
        (normalizedReading bid fl body).gas_level = none
      ∧ gasCandidates THRESHOLDS (normalizedReading bid fl body) = [])
  ∧ (optStrTruthy body.bin_code = true → body.fill_level = some fl → 0 ≤ fl → fl ≤ 100 →
       db.binLookup = some bid → db.readingInsertOk = true →
       (receiveSensorData db body).1 =
         IngestResult.success (normalizedReading bid fl body)
           (evaluateReadingDb THRESHOLDS (normalizedReading bid fl body)
             db.alertInsertOk).length) := by
  refine ⟨rfl, rfl, rfl, ?_, ?_, ?_⟩
  · intro hb
    refine ⟨?_, ?_, by decide⟩
    · simp [normalizedReading, hb, numOrNull]
    · simp [battCandidates, normalizedReading, hb, numOrNull]
  · intro hg
    constructor
    · simp [normalizedReading, hg, numOrNull]
    · simp [gasCandidates, normalizedReading, hg, numOrNull]
  · intro hbc hfl h0 h100 hbin hri
    simp [receiveSensorData, hfl, hbc, hbin, hri, not_lt.mpr h0, not_lt.mpr h100]

/-- Witness for C10: submitting battery 0 and gas 0 with fill 30 stores
both as null and generates zero alerts. -/
theorem C10_falsy_zero_fields_witness :
    (normalizedReading ("bin-uuid-1") 30 bodyBattZero).battery_level = none
  ∧ battCandidates THRESHOLDS (normalizedReading ("bin-uuid-1") 30 bodyBattZero) = []
  ∧ (normalizedReading ("bin-uuid-1") 30 bodyBattZero).gas_level = none
  ∧ (receiveSensorData dbAllOk bodyBattZero).1 =
      IngestResult.success (normalizedReading ("bin-uuid-1") 30 bodyBattZero) 0 := by
  have h := C10_falsy_zero_fields dbAllOk bodyBattZero ("bin-uuid-1") 30
  have hb := h.2.2.2.1 rfl
  have hg := h.2.2.2.2.1 rfl
  have hp := h.2.2.2.2.2 (by decide) rfl (by decide) (by decide) rfl rfl
  refine ⟨hb.1, hb.2.1, hg.1, ?_⟩
  rw [hp]
  rfl

end SmartWaste
